import Mathlib

/-!
Shallow embedding of `flask_rest_jsonapi/querystring.py` (class
`QueryStringManager`): a query-string parser for the JSON:API conventions.

The raw parameter mapping (`request.args` / `self.qs`) is embedded as an
ordered association list `List (String × String)` (Python dicts preserve
insertion order; keys are unique in actual request dicts).  Python string
operations (`str.startswith`, `str.index`, slicing, `str.split`,
`str.strip`, `int(...)`) are embedded as functions over `String.data`
(lists of characters) with Python's semantics.  Exceptions are embedded as
an `Except PyErr` result; `PyErr` distinguishes the library's own
exception classes (`BadRequest`, `InvalidFilters`, `InvalidSort`,
`InvalidField`, `InvalidInclude`) from uncaught Python `TypeError` /
`ValueError`.
-/

/-- Characters Python's `str.strip()` removes and JSON treats as whitespace
(restricted to the ASCII whitespace actually relevant here). -/
def isPyWs (c : Char) : Bool :=
  c = ' ' ∨ c = '\t' ∨ c = '\n' ∨ c = '\r' ∨ c = '\x0b' ∨ c = '\x0c'

/-- Python `str.strip()` (no argument): drop leading and trailing whitespace. -/
def pyStrip (l : List Char) : List Char :=
  ((l.dropWhile isPyWs).reverse.dropWhile isPyWs).reverse

/-- Index of the first occurrence of `c`, as Python's `str.index` computes it
(`none` embeds the `ValueError` Python raises when the character is absent). -/
def firstIdx (c : Char) : List Char → Option Nat
  | [] => none
  | x :: xs => if x = c then some 0 else (firstIdx c xs).map (· + 1)

/-- Python slice `s[a:b]` for `0 ≤ a, b` (empty when `a ≥ b`, clipped at the
end of the string). -/
def pySlice (s : String) (a b : Nat) : String :=
  ((s.data.drop a).take (b - a)).asString

/-- Python `str.startswith` with a single string argument. -/
def pyStartsWith (s pre : String) : Bool :=
  pre.data.isPrefixOf s.data

/-- Python `str.startswith` with a tuple argument: true when some element of
the tuple is a prefix. -/
def startsWithAny (s : String) (ps : List String) : Bool :=
  ps.any (pyStartsWith s)

/-- Python `str.split(c)` for a one-character separator: keeps empty pieces,
`"".split(c) = [""]`. -/
def splitCL (c : Char) : List Char → List (List Char)
  | [] => [[]]
  | x :: xs =>
    let r := splitCL c xs
    if x = c then [] :: r
    else
      match r with
      | h :: t => (x :: h) :: t
      | [] => [[x]]

/-- `splitCL` lifted to `String`. -/
def splitC (c : Char) (s : String) : List String :=
  (splitCL c s.data).map List.asString

/-- Digits of a base-10 numeral to a natural number; `none` unless the list
is a nonempty all-digit sequence. -/
def digitsToNat : List Char → Option Nat
  | [] => none
  | [c] => if c.isDigit then some (c.toNat - '0'.toNat) else none
  | c :: cs =>
    if c.isDigit then
      (digitsToNat cs).map (fun n => (c.toNat - '0'.toNat) * 10 ^ cs.length + n)
    else none

/-- Python `int(s)` on a string: strips surrounding whitespace, then an
optional sign followed by a nonempty digit sequence; `none` embeds the
`ValueError` raised otherwise.  (Underscore digit grouping is not modelled;
no input in this development uses it.) -/
def pyInt (s : String) : Option Int :=
  match pyStrip s.data with
  | '-' :: ds => (digitsToNat ds).map (fun n => -(n : Int))
  | '+' :: ds => (digitsToNat ds).map (fun n => (n : Int))
  | ds => (digitsToNat ds).map (fun n => (n : Int))

/-- A raw querystring value after `_get_key_values` processing: Python keeps
the string when it has no comma and replaces it by the comma-split list
otherwise. -/
inductive SVal where
  | str (s : String)
  | list (l : List String)
deriving DecidableEq, Repr

/-- `value.split(',') if ',' in value else value` from `_get_key_values`. -/
def splitVal (v : String) : SVal :=
  if v.data.contains ',' then .list (splitC ',' v) else .str v

/-- Python `dict.update({k: v})` on an insertion-ordered association list:
an existing key keeps its position and gets the new value, a new key is
appended. -/
def dictUpdate (l : List (String × SVal)) (k : String) (v : SVal) :
    List (String × SVal) :=
  if l.any (fun p => p.1 == k) then
    l.map (fun p => if p.1 == k then (k, v) else p)
  else l ++ [(k, v)]

/-- Python `dict.get(k)` on an association list. -/
def dictGet (l : List (String × SVal)) (k : String) : Option SVal :=
  (l.find? (fun p => p.1 == k)).map (·.2)

/-- `self.qs.get(k)` on the raw parameter mapping. -/
def pyGet (qs : List (String × String)) (k : String) : Option String :=
  (qs.find? (fun p => p.1 == k)).map (·.2)

/-- Modelled from the spec: the error kinds of `flask_rest_jsonapi.exceptions`
(`BadRequest`, `InvalidFilters`, `InvalidSort`, `InvalidField`,
`InvalidInclude`; that module is not part of the provided source tree), each
carrying a human-readable message and, for `BadRequest`, the
source-parameter identifier.  `typeError` and `valueError` embed uncaught
Python exceptions escaping the accessor. -/
inductive PyErr where
  | badRequest (msg : String) (param : String)
  | invalidFilters (msg : String)
  | invalidSort (msg : String)
  | invalidField (msg : String)
  | invalidInclude (msg : String)
  | typeError (msg : String)
  | valueError (msg : String)
deriving DecidableEq, Repr

/-- `QueryStringManager.MANAGED_KEYS`. -/
def MANAGED_KEYS : List String :=
  ["filter", "page", "fields", "sort", "include", "q"]

/-- The substring of `key` between the first `[` and the first `]`
(`key[key.index('[') + 1 : key.index(']')]`); `none` embeds the
`ValueError` from `str.index` when either bracket is absent. -/
def bracketSubKey (key : String) : Option String :=
  match firstIdx '[' key.data, firstIdx ']' key.data with
  | some i, some j => some (pySlice key (i + 1) j)
  | _, _ => none

/-- The loop of `QueryStringManager._get_key_values`, iterating the raw
items in order and accumulating the result dict. -/
def getKeyValuesGo (name : String) :
    List (String × String) → List (String × SVal) →
    Except PyErr (List (String × SVal))
  | [], acc => .ok acc
  | (k, v) :: rest, acc =>
    if pyStartsWith k name then
      match bracketSubKey k with
      | none => .error (.badRequest "Parse error" k)
      | some ik => getKeyValuesGo name rest (dictUpdate acc ik (splitVal v))
    else getKeyValuesGo name rest acc

/-- `QueryStringManager._get_key_values`. -/
def get_key_values (qs : List (String × String)) (name : String) :
    Except PyErr (List (String × SVal)) :=
  getKeyValuesGo name qs []

/-- `QueryStringManager.querystring`: the dict comprehension keeps an item
when its key starts with one of `MANAGED_KEYS`, or (evaluated only when that
fails, by `or` short-circuiting) when `_get_key_values('filter[')` over the
whole mapping is a nonempty dict. -/
def querystringGo (qs : List (String × String)) :
    List (String × String) → Except PyErr (List (String × String))
  | [] => .ok []
  | (k, v) :: rest =>
    if startsWithAny k MANAGED_KEYS then
      (querystringGo qs rest).map (fun t => (k, v) :: t)
    else
      match get_key_values qs "filter[" with
      | .error e => .error e
      | .ok r =>
        if r.isEmpty then querystringGo qs rest
        else (querystringGo qs rest).map (fun t => (k, v) :: t)

/-- `QueryStringManager.querystring` (property). -/
def querystring (qs : List (String × String)) :
    Except PyErr (List (String × String)) :=
  querystringGo qs qs

example : splitC ',' "a,b" = ["a", "b"] := by decide
example : splitC ',' "" = [""] := by decide
example : splitC ',' "a," = ["a", ""] := by decide
example : pyInt " 42 " = some 42 := by decide
example : pyInt "-7" = some (-7) := by decide
example : pyInt "x2" = none := by decide
example : bracketSubKey "page[number]" = some "number" := by decide
example : bracketSubKey "pagenumber]" = none := by decide
example : get_key_values [("page[number]", "25")] "page" =
    .ok [("number", .str "25")] := rfl
example : get_key_values [("page[number]", "1,2")] "page" =
    .ok [("number", .list ["1", "2"])] := rfl
example : querystring [("filter[name]", "bob"), ("utm_source", "x")] =
    .ok [("filter[name]", "bob"), ("utm_source", "x")] := rfl
example : querystring [("sort", "name"), ("utm_source", "x")] =
    .ok [("sort", "name")] := rfl

/-- A decoded JSON value (Python `json.loads` result).  Numbers are
restricted to integers: no claim in this development involves JSON
fractions or exponents. -/
inductive JVal where
  | null
  | bool (b : Bool)
  | num (n : Int)
  | str (s : String)
  | arr (elems : List JVal)
  | obj (fields : List (String × JVal))

/-- Skip JSON whitespace. -/
def skipWs : List Char → List Char
  | [] => []
  | c :: cs => if c = ' ' ∨ c = '\t' ∨ c = '\n' ∨ c = '\r' then skipWs cs else c :: cs

/-- A JSON string escape character (`\uXXXX` escapes are not modelled). -/
def escChar (c : Char) : Option Char :=
  if c = '"' then some '"'
  else if c = '\\' then some '\\'
  else if c = '/' then some '/'
  else if c = 'n' then some '\n'
  else if c = 't' then some '\t'
  else if c = 'r' then some '\r'
  else if c = 'b' then some '\x08'
  else if c = 'f' then some '\x0c'
  else none

/-- Parse the body of a JSON string after the opening quote; returns the
decoded characters and the input after the closing quote. -/
def parseJStr : List Char → Option (List Char × List Char)
  | [] => none
  | '\\' :: e :: rest =>
    match escChar e with
    | some c => (parseJStr rest).map (fun p => (c :: p.1, p.2))
    | none => none
  | '\\' :: [] => none
  | '"' :: rest => some ([], rest)
  | c :: rest => (parseJStr rest).map (fun p => (c :: p.1, p.2))

/-- Maximal digit prefix. -/
def takeDigits (cs : List Char) : List Char × List Char :=
  (cs.takeWhile Char.isDigit, cs.dropWhile Char.isDigit)

/-- Parse a JSON integer (optional minus, digits); fails on a fraction or
exponent (not modelled). -/
def parseJNum (cs : List Char) : Option (Int × List Char) :=
  let neg : Bool := cs.head? = some '-'
  let cs1 := if neg then cs.tail else cs
  let ds := (takeDigits cs1).1
  let rest := (takeDigits cs1).2
  match digitsToNat ds with
  | none => none
  | some n =>
    match rest with
    | '.' :: _ => none
    | 'e' :: _ => none
    | 'E' :: _ => none
    | _ => some (if neg then -(n : Int) else (n : Int), rest)

mutual

/-- Recursive-descent JSON value parser (model of Python `json.loads`,
fuel-totalised; the fuel passed by `jsonLoads` always suffices). -/
def parseJVal : Nat → List Char → Option (JVal × List Char)
  | 0, _ => none
  | fuel + 1, cs =>
    match skipWs cs with
    | [] => none
    | 'n' :: c1 :: c2 :: c3 :: rest =>
      if c1 = 'u' ∧ c2 = 'l' ∧ c3 = 'l' then some (.null, rest) else none
    | 't' :: c1 :: c2 :: c3 :: rest =>
      if c1 = 'r' ∧ c2 = 'u' ∧ c3 = 'e' then some (.bool true, rest)
      else none
    | 'f' :: c1 :: c2 :: c3 :: c4 :: rest =>
      if c1 = 'a' ∧ c2 = 'l' ∧ c3 = 's' ∧ c4 = 'e' then some (.bool false, rest)
      else none
    | '"' :: rest =>
      (parseJStr rest).map (fun p => (.str p.1.asString, p.2))
    | '[' :: rest =>
      (match skipWs rest with
       | ']' :: r2 => some (.arr [], r2)
       | cs2 => (parseJArrElems fuel cs2).map (fun p => (.arr p.1, p.2)))
    | '\x7b' :: rest =>
      (match skipWs rest with
       | '\x7d' :: r2 => some (.obj [], r2)
       | cs2 => (parseJObjElems fuel cs2).map (fun p => (.obj p.1, p.2)))
    | cs1 => (parseJNum cs1).map (fun p => (.num p.1, p.2))

/-- One-or-more comma-separated JSON array elements up to `]`. -/
def parseJArrElems : Nat → List Char → Option (List JVal × List Char)
  | 0, _ => none
  | fuel + 1, cs =>
    match parseJVal fuel cs with
    | none => none
    | some (v, rest) =>
      match skipWs rest with
      | ',' :: r2 => (parseJArrElems fuel r2).map (fun p => (v :: p.1, p.2))
      | ']' :: r2 => some ([v], r2)
      | _ => none

/-- One-or-more comma-separated JSON object members up to the closing
brace. -/
def parseJObjElems : Nat → List Char → Option (List (String × JVal) × List Char)
  | 0, _ => none
  | fuel + 1, cs =>
    match skipWs cs with
    | '"' :: r =>
      (match parseJStr r with
       | none => none
       | some (k, r2) =>
         match skipWs r2 with
         | ':' :: r3 =>
           (match parseJVal fuel r3 with
            | none => none
            | some (v, r4) =>
              match skipWs r4 with
              | ',' :: r5 =>
                (parseJObjElems fuel r5).map (fun p => ((k.asString, v) :: p.1, p.2))
              | '\x7d' :: r5 => some ([(k.asString, v)], r5)
              | _ => none)
         | _ => none)
    | _ => none

end

/-- Model of Python `json.loads`: parse one JSON value and require only
whitespace after it; `none` embeds the `ValueError`
(`json.JSONDecodeError`) raised on malformed input. -/
def jsonLoads (s : String) : Option JVal :=
  match parseJVal (s.data.length + 1) s.data with
  | none => none
  | some (v, rest) => if skipWs rest = [] then some v else none

/-- Python iteration over a decoded JSON value, as `list.extend` consumes
it: a list yields its elements, a dict its keys, a string its one-character
substrings; a number, boolean or `None` is not iterable (`none` embeds the
`TypeError`). -/
def pyExtend : JVal → Option (List JVal)
  | .arr l => some l
  | .obj l => some (l.map (fun p => JVal.str p.1))
  | .str s => some (s.data.map (fun c => JVal.str c.toString))
  | _ => none

/-- A simple-filter value as it lands inside the synthesized condition dict:
the scalar string, or the comma-split list of strings. -/
def svalToJVal : SVal → JVal
  | .str s => .str s
  | .list l => .arr (l.map JVal.str)

/-- `QueryStringManager._simple_filters`: one `{name, op: "eq", val}`
condition per bracket-group entry, in order. -/
def simple_filters (d : List (String × SVal)) : List JVal :=
  d.map (fun p => JVal.obj
    [("name", .str p.1), ("op", .str "eq"), ("val", svalToJVal p.2)])

/-- `QueryStringManager.filters`: decode the raw `filter` parameter and
extend the result with it (`ValueError` and `TypeError` are both mapped to
`InvalidFilters("Parse error")`); then, when the `filter[` bracket group is
nonempty, append the synthesized equality conditions. -/
def filters (qs : List (String × String)) : Except PyErr (List JVal) :=
  let step1 : Except PyErr (List JVal) :=
    match pyGet qs "filter" with
    | none => .ok []
    | some v =>
      match jsonLoads v with
      | none => .error (.invalidFilters "Parse error")
      | some jv =>
        match pyExtend jv with
        | none => .error (.invalidFilters "Parse error")
        | some items => .ok items
  match step1 with
  | .error e => .error e
  | .ok results =>
    match get_key_values qs "filter[" with
    | .error e => .error e
    | .ok kvs =>
      if kvs.isEmpty then .ok results
      else .ok (results ++ simple_filters kvs)

example : jsonLoads "not-json" = none := rfl
example : jsonLoads "[\x7b\"name\":\"age\",\"op\":\"eq\",\"val\":30\x7d]" =
    some (.arr [.obj [("name", .str "age"), ("op", .str "eq"), ("val", .num 30)]]) := rfl
example : jsonLoads " \x7b\"a\": 1, \"b\": null\x7d " =
    some (.obj [("a", .num 1), ("b", .null)]) := rfl
example : jsonLoads "\"ab\"" = some (.str "ab") := rfl
example : jsonLoads "-3" = some (.num (-3)) := rfl
example : jsonLoads "true" = some (.bool true) := rfl
example : filters [("filter", "not-json")] = .error (.invalidFilters "Parse error") := rfl
example : filters [("filter", "3")] = .error (.invalidFilters "Parse error") := rfl
example : filters [("filter[name]", "bob")] =
    .ok [.obj [("name", .str "name"), ("op", .str "eq"), ("val", .str "bob")]] := rfl

/-- The configuration provider (`current_app.config`), restricted to the
keys the parser reads: `ALLOW_DISABLE_PAGINATION` (default `True`),
`MAX_PAGE_SIZE` (default absent), `MAX_INCLUDE_DEPTH` (default absent). -/
structure Config where
  allowDisablePagination : Bool
  maxPageSize : Option Int
  maxIncludeDepth : Option Int

/-- The defaults: nothing configured. -/
def defaultConfig : Config := ⟨true, none, none⟩

/-- Python `int(value)` on a `_get_key_values` value: a string parses or
raises `ValueError`; a list raises `TypeError` (which
`except ValueError` in `pagination` does NOT catch). -/
def pyIntOfSVal : SVal → Except PyErr Int
  | .str s =>
    match pyInt s with
    | some n => .ok n
    | none => .error (.valueError ("invalid literal for int() with base 10: " ++ s))
  | .list _ =>
    .error (.typeError "int() argument must be a string, a bytes-like object or a real number, not 'list'")

/-- The validation loop of `QueryStringManager.pagination`: each sub-key
must be `number` or `size`, and `int(value)` must succeed; only
`ValueError` is converted to `BadRequest`, any other exception (the
`TypeError` from a list value) propagates. -/
def checkPageEntries : List (String × SVal) → Except PyErr Unit
  | [] => .ok ()
  | (k, v) :: rest =>
    if ¬ (k = "number" ∨ k = "size") then
      .error (.badRequest (k ++ " is not a valid parameter of pagination") "page")
    else
      match pyIntOfSVal v with
      | .ok _ => checkPageEntries rest
      | .error (.valueError _) => .error (.badRequest "Parse error" ("page[" ++ k ++ "]"))
      | .error e => .error e

/-- `int(result.get('size', 1))`. -/
def sizeOrOne (result : List (String × SVal)) : Except PyErr Int :=
  match dictGet result "size" with
  | none => .ok 1
  | some v => pyIntOfSVal v

/-- `QueryStringManager.pagination`. -/
def pagination (cfg : Config) (qs : List (String × String)) :
    Except PyErr (List (String × SVal)) :=
  match get_key_values qs "page" with
  | .error e => .error e
  | .ok result =>
    match checkPageEntries result with
    | .error e => .error e
    | .ok _ =>
      let step2 : Except PyErr Unit :=
        if cfg.allowDisablePagination = false then
          match sizeOrOne result with
          | .error e => .error e
          | .ok n =>
            if n = 0 then
              .error (.badRequest "You are not allowed to disable pagination" "page[size]")
            else .ok ()
        else .ok ()
      match step2 with
      | .error e => .error e
      | .ok _ =>
        let step3 : Except PyErr Unit :=
          match cfg.maxPageSize with
          | none => .ok ()
          | some m =>
            match dictGet result "size" with
            | none => .ok ()
            | some v =>
              match pyIntOfSVal v with
              | .error e => .error e
              | .ok n =>
                if n > m then
                  .error (.badRequest ("Maximum page size is " ++ toString m) "page[size]")
                else .ok ()
        match step3 with
        | .error e => .error e
        | .ok _ => .ok result

/-- Modelled from the spec: the schema-introspection collaborator
(`flask_rest_jsonapi.schema`, not part of the provided source tree).  A
schema descriptor exposes its class name (`__name__`), its declared field
names (`_declared_fields`), which of them are relationship fields
(`get_relationships`), which relationships are to-many (`.many`), the
underlying model-level field for a schema field (`get_model_field`), and
the resource-type name of the related schema for a relationship field
(`get_related_schema` composed with the type registry). -/
structure SchemaDesc where
  name : String
  declaredFields : List String
  relationships : List String
  manyRels : List String
  modelField : String → String
  relatedType : String → String

/-- Modelled from the spec: `get_schema_from_type`, resolving a resource
type name to its schema descriptor through the registry; embedded as a
total environment supplied by the test fixture. -/
def SchemaEnv : Type := String → SchemaDesc

/-- Normalisation of a sparse-fieldset value: scalars become one-element
lists (`if not isinstance(value, list): result[key] = [value]`). -/
def normSVal : SVal → List String
  | .str s => [s]
  | .list l => l

/-- The first requested field not declared on the schema, if any
(the validation loop of `QueryStringManager.fields` raises at it). -/
def findUndeclared (sch : SchemaDesc) : List String → Option String
  | [] => none
  | f :: fs => if f ∈ sch.declaredFields then findUndeclared sch fs else some f

/-- The validation loop of `QueryStringManager.fields`. -/
def checkFields (env : SchemaEnv) : List (String × List String) → Except PyErr Unit
  | [] => .ok ()
  | (t, fl) :: rest =>
    match findUndeclared (env t) fl with
    | some f => .error (.invalidField ((env t).name ++ " has no attribute " ++ f))
    | none => checkFields env rest

/-- `QueryStringManager.fields`. -/
def fields (env : SchemaEnv) (qs : List (String × String)) :
    Except PyErr (List (String × List String)) :=
  match get_key_values qs "fields" with
  | .error e => .error e
  | .ok result =>
    let norm := result.map (fun p => (p.1, normSVal p.2))
    match checkFields env norm with
    | .error e => .error e
    | .ok _ => .ok norm

/-- A word character of the sort grammar (`\w` of the Python regex,
restricted to ASCII letters, digits and underscore; no input in this
development uses non-ASCII word characters). -/
def isWordChar (c : Char) : Bool :=
  c.isAlphanum ∨ c = '_'

/-- Maximal `\w*` prefix and the remaining input. -/
def takeWord : List Char → List Char × List Char
  | [] => ([], [])
  | c :: cs =>
    if isWordChar c then
      ((takeWord cs).1.cons c, (takeWord cs).2)
    else ([], c :: cs)

/-- The `(?:\w+\.)*(\w+)` tail of the sort regex under Python backtracking:
greedily consume `word.` groups; when no word follows, give the last
`word.` group back so its word becomes the final field.  Returns the
captured `join_path` group, the captured field group, and the unconsumed
input.  Fuel-totalised; the fuel passed by `sortMatch` always suffices. -/
def wordDots : Nat → List Char → Option (String × String × List Char)
  | 0, _ => none
  | fuel + 1, cs =>
    let w := (takeWord cs).1
    let r := (takeWord cs).2
    if w.isEmpty then none
    else
      match r with
      | '.' :: r2 =>
        (match wordDots fuel r2 with
         | some (j, f, rest) => some (w.asString ++ "." ++ j, f, rest)
         | none => some ("", w.asString, r))
      | _ => some ("", w.asString, r)

/-- `pattern.match(sort_field)` for the sort regex
`(-?)(?:\[((?:nullsfirst)|(?:nullslast))\])?((?:\w+\.)*)(\w+)`:
an anchored prefix match (Python `re.match` does not anchor at the end),
returning the `minus`, `nulls`, `join_path` and `schema_field` groups. -/
def sortMatch (s : String) : Option (Bool × Option String × String × String) :=
  let cs0 := s.data
  let p1 : Bool × List Char :=
    match cs0 with
    | '-' :: r => (true, r)
    | _ => (false, cs0)
  let p2 : Option String × List Char :=
    if "[nullsfirst]".data.isPrefixOf p1.2 then (some "nullsfirst", p1.2.drop 12)
    else if "[nullslast]".data.isPrefixOf p1.2 then (some "nullslast", p1.2.drop 11)
    else (none, p1.2)
  match wordDots (p2.2.length + 1) p2.2 with
  | none => none
  | some (j, f, _) => some (p1.1, p2.1, j, f)

/-- Python `join_path.strip(".")`. -/
def stripDots (s : String) : String :=
  (((s.data.dropWhile (· = '.')).reverse.dropWhile (· = '.')).reverse).asString

/-- `join_path.strip(".").split(".") if join_path else []`. -/
def segJoins (joinPath : String) : List String :=
  if joinPath = "" then [] else splitC '.' (stripDots joinPath)

/-- One entry of the sorting result:
`{"field": model_field, "order": order, "nulls": nulls, "joins": model_joins}`. -/
structure SortItem where
  field : String
  order : String
  nulls : Option String
  joins : List String
deriving DecidableEq, Repr

/-- The relationship-path loop of `QueryStringManager.sorting`: walk the
dotted path, rejecting undeclared relationships and to-many traversals,
accumulating model-level join fields and advancing the current schema. -/
def resolveJoins (env : SchemaEnv) :
    SchemaDesc → List String → List String → Except PyErr (SchemaDesc × List String)
  | sch, [], acc => .ok (sch, acc)
  | sch, j :: rest, acc =>
    if ¬ j ∈ sch.relationships then
      .error (.invalidSort (sch.name ++ " has no relationship " ++ j))
    else if j ∈ sch.manyRels then
      .error (.invalidSort ("Cannot do X->many join from " ++ sch.name ++ " to " ++ j))
    else
      resolveJoins env (env (sch.relatedType j)) rest (acc ++ [sch.modelField j])

/-- The per-segment body of the `QueryStringManager.sorting` loop. -/
def resolveSortSegment (env : SchemaEnv) (sch : SchemaDesc) (s : String) :
    Except PyErr SortItem :=
  match sortMatch s with
  | none => .error (.invalidSort "Invalid sort field format {sort_field}")
  | some (minus, nulls, joinPath, schemaField) =>
    let order := if minus then "desc" else "asc"
    match resolveJoins env sch (segJoins joinPath) [] with
    | .error e => .error e
    | .ok (cur, modelJoins) =>
      if ¬ schemaField ∈ cur.declaredFields then
        .error (.invalidSort (cur.name ++ " has no attribute " ++ schemaField))
      else if schemaField ∈ cur.relationships then
        .error (.invalidSort ("You can't sort on " ++ schemaField ++ " because it is a relationship field"))
      else .ok ⟨cur.modelField schemaField, order, nulls, modelJoins⟩

/-- The `for sort_field in self.qs['sort'].split(',')` loop: results are
appended in order, the first raised exception aborts. -/
def mapME (f : String → Except PyErr SortItem) :
    List String → Except PyErr (List SortItem)
  | [] => .ok []
  | x :: xs =>
    match f x with
    | .error e => .error e
    | .ok y =>
      match mapME f xs with
      | .error e => .error e
      | .ok ys => .ok (y :: ys)

/-- `QueryStringManager.sorting` (`if not self.qs.get('sort'): return []`
treats both an absent parameter and an empty string as falsy). -/
def sorting (env : SchemaEnv) (sch : SchemaDesc) (qs : List (String × String)) :
    Except PyErr (List SortItem) :=
  match pyGet qs "sort" with
  | none => .ok []
  | some v =>
    if v = "" then .ok []
    else mapME (resolveSortSegment env sch) (splitC ',' v)

/-- `QueryStringManager.include`: when a maximum depth is configured the
loop `for include_path in include_param` iterates over the CHARACTERS of
the raw string, so `include_path.split('.')` has length 2 exactly for the
character `'.'` and length 1 otherwise; afterwards the raw value is split
on `','` (an empty string is falsy and yields `[]`). -/
def includeList (cfg : Config) (qs : List (String × String)) :
    Except PyErr (List String) :=
  match pyGet qs "include" with
  | none => .ok []
  | some v =>
    match cfg.maxIncludeDepth with
    | some m =>
      if v.data.any (fun c => decide (((splitC '.' c.toString).length : Int) > m)) then
        .error (.invalidInclude
          ("You can't use include through more than " ++ toString m ++ " relationships"))
      else if v = "" then .ok [] else .ok (splitC ',' v)
    | none => if v = "" then .ok [] else .ok (splitC ',' v)

example : sortMatch "-[nullslast]foo.bar.baz" =
    some (true, some "nullslast", "foo.bar.", "baz") := rfl
example : sortMatch "" = none := rfl
example : sortMatch "!" = none := rfl
example : sortMatch "-" = none := rfl
example : sortMatch "[nullsfirst]" = none := rfl
example : sortMatch "foo!!" = some (false, none, "", "foo") := rfl
example : sortMatch "foo." = some (false, none, "", "foo") := rfl
example : sortMatch "a..b" = some (false, none, "", "a") := rfl
example : sortMatch "a.b.!" = some (false, none, "a.", "b") := rfl
example : segJoins "foo.bar." = ["foo", "bar"] := rfl
example : segJoins "" = [] := rfl
example : pagination defaultConfig [("page[number]", "25"), ("page[size]", "10")] =
    .ok [("number", .str "25"), ("size", .str "10")] := rfl
example : pagination defaultConfig [("page[number]", "1,2")] =
    .error (.typeError "int() argument must be a string, a bytes-like object or a real number, not 'list'") := rfl
example : pagination ⟨false, none, none⟩ [("page[size]", "0")] =
    .error (.badRequest "You are not allowed to disable pagination" "page[size]") := rfl
example : pagination ⟨true, some 100, none⟩ [("page[size]", "9999")] =
    .error (.badRequest "Maximum page size is 100" "page[size]") := rfl
example : includeList ⟨true, none, some 1⟩ [("include", "author.publisher")] =
    .error (.invalidInclude "You can't use include through more than 1 relationships") := rfl
example : includeList defaultConfig [("include", "author.publisher")] =
    .ok ["author.publisher"] := rfl
example : includeList ⟨true, none, some 2⟩ [("include", "a.b.c")] =
    .ok ["a.b.c"] := rfl
example : includeList defaultConfig [] = .ok [] := rfl

theorem data_append (a b : String) : (a ++ b).data = a.data ++ b.data := rfl

theorem asString_data (s : String) : s.data.asString = s := rfl

theorem isPrefixOf_append (l r : List Char) : l.isPrefixOf (l ++ r) = true := by
  induction l with
  | nil => simp [List.isPrefixOf]
  | cons c cs ih => simp [List.isPrefixOf, ih]

theorem pyStartsWith_of_append {s pre : String} (r : List Char)
    (h : s.data = pre.data ++ r) : pyStartsWith s pre = true := by
  unfold pyStartsWith
  rw [h]
  exact isPrefixOf_append pre.data r

theorem firstIdx_of_not_mem {c : Char} {l : List Char} (h : ¬ c ∈ l) :
    firstIdx c l = none := by
  induction l with
  | nil => rfl
  | cons x xs ih =>
    have hx : ¬ x = c := by
      intro hxc
      exact h (hxc ▸ List.mem_cons_self x xs)
    have hxs : ¬ c ∈ xs := fun hm => h (List.mem_cons_of_mem x hm)
    simp [firstIdx, hx, ih hxs]

theorem firstIdx_append_cons {c : Char} {l₁ : List Char} (l₂ : List Char)
    (h : ¬ c ∈ l₁) : firstIdx c (l₁ ++ c :: l₂) = some l₁.length := by
  induction l₁ with
  | nil => simp [firstIdx]
  | cons x xs ih =>
    have hx : ¬ x = c := by
      intro hxc
      exact h (hxc ▸ List.mem_cons_self x xs)
    have hxs : ¬ c ∈ xs := fun hm => h (List.mem_cons_of_mem x hm)
    simp [firstIdx, hx, ih hxs]

theorem rawKey_data (pre k : String) :
    (pre ++ "[" ++ k ++ "]").data = pre.data ++ '[' :: (k.data ++ [']']) := by
  rw [data_append, data_append, data_append]
  simp

theorem bracketSubKey_shape {pre k : String}
    (h1 : ¬ '[' ∈ pre.data) (h2 : ¬ ']' ∈ pre.data)
    (h3 : ¬ '[' ∈ k.data) (h4 : ¬ ']' ∈ k.data) :
    bracketSubKey (pre ++ "[" ++ k ++ "]") = some k := by
  have hdata := rawKey_data pre k
  have hopen : firstIdx '[' (pre ++ "[" ++ k ++ "]").data =
      some pre.data.length := by
    rw [hdata]
    exact firstIdx_append_cons _ h1
  have hclose : firstIdx ']' (pre ++ "[" ++ k ++ "]").data =
      some (pre.data.length + 1 + k.data.length) := by
    rw [hdata]
    have hsplit : pre.data ++ '[' :: (k.data ++ [']']) =
        (pre.data ++ '[' :: k.data) ++ ']' :: [] := by simp
    rw [hsplit]
    have hnm : ¬ ']' ∈ pre.data ++ '[' :: k.data := by
      intro hm
      rcases List.mem_append.mp hm with hma | hmb
      · exact h2 hma
      · rcases List.mem_cons.mp hmb with heq | hmk
        · exact absurd heq (by decide)
        · exact h4 hmk
    rw [firstIdx_append_cons ([] : List Char) hnm]
    have hlen : (pre.data ++ '[' :: k.data).length =
        pre.data.length + 1 + k.data.length := by
      simp
      omega
    rw [hlen]
  unfold bracketSubKey
  rw [hopen, hclose]
  show some (pySlice (pre ++ "[" ++ k ++ "]") (pre.data.length + 1)
    (pre.data.length + 1 + k.data.length)) = some k
  congr 1
  unfold pySlice
  rw [hdata]
  have hd : (pre.data ++ '[' :: (k.data ++ [']'])).drop (pre.data.length + 1) =
      k.data ++ [']'] := by
    have hsp : pre.data ++ '[' :: (k.data ++ [']']) =
        (pre.data ++ ['[']) ++ (k.data ++ [']']) := by simp
    rw [hsp]
    have hlen : (pre.data ++ ['[']).length = pre.data.length + 1 := by simp
    rw [← hlen]
    exact List.drop_left _ _
  rw [hd]
  have harith : pre.data.length + 1 + k.data.length - (pre.data.length + 1) =
      k.data.length := by omega
  rw [harith]
  rw [List.take_left]
  exact asString_data k

theorem getKeyValuesGo_step_ok {pre k : String} (v : String)
    (rest : List (String × String)) (acc : List (String × SVal))
    (h1 : ¬ '[' ∈ pre.data) (h2 : ¬ ']' ∈ pre.data)
    (h3 : ¬ '[' ∈ k.data) (h4 : ¬ ']' ∈ k.data) :
    getKeyValuesGo pre ((pre ++ "[" ++ k ++ "]", v) :: rest) acc =
      getKeyValuesGo pre rest (dictUpdate acc k (splitVal v)) := by
  have hs : pyStartsWith (pre ++ "[" ++ k ++ "]") pre = true :=
    pyStartsWith_of_append _ (rawKey_data pre k)
  simp only [getKeyValuesGo, hs, bracketSubKey_shape h1 h2 h3 h4, if_true]

theorem get_key_values_single (pre k v : String)
    (h1 : ¬ '[' ∈ pre.data) (h2 : ¬ ']' ∈ pre.data)
    (h3 : ¬ '[' ∈ k.data) (h4 : ¬ ']' ∈ k.data) :
    get_key_values [(pre ++ "[" ++ k ++ "]", v)] pre =
      .ok [(k, splitVal v)] := by
  unfold get_key_values
  rw [getKeyValuesGo_step_ok v [] [] h1 h2 h3 h4]
  simp [getKeyValuesGo, dictUpdate]

theorem get_key_values_bad_bracket {pre rawk : String} (v : String)
    (hs : pyStartsWith rawk pre = true)
    (hb : ¬ '[' ∈ rawk.data ∨ ¬ ']' ∈ rawk.data) :
    get_key_values [(rawk, v)] pre = .error (.badRequest "Parse error" rawk) := by
  have hnone : bracketSubKey rawk = none := by
    unfold bracketSubKey
    rcases hb with h | h
    · rw [firstIdx_of_not_mem h]
    · rw [firstIdx_of_not_mem h]
      rcases firstIdx '[' rawk.data with _ | i <;> rfl
  unfold get_key_values
  simp only [getKeyValuesGo, hs, hnone, if_true]

/-- Test fixture: schema descriptor for the `computer` resource type
(`owner` is a to-one relationship to `person`). -/
def computerSchema : SchemaDesc :=
  ⟨"ComputerSchema", ["serial", "owner"], ["owner"], [],
   fun f => "m_" ++ f, fun _ => "person"⟩

/-- Test fixture: schema descriptor for the `person` resource type
(`computers` is a to-many relationship to `computer`). -/
def personSchema : SchemaDesc :=
  ⟨"PersonSchema", ["name", "birth_date", "computers"], ["computers"], ["computers"],
   fun f => "m_" ++ f, fun _ => "computer"⟩

/-- Test fixture: the type registry for the two schemas above. -/
def testEnv : SchemaEnv := fun t =>
  if t = "computer" then computerSchema else personSchema

/-- Claim C1 (code evaluation at the failing input): when the mapping
contains a `filter[...]` key, the truthiness test
`or self._get_key_values('filter[')` holds for EVERY key, so the unrelated
key `utm_source` is returned by the managed-parameter view as well,
contradicting the claimed restriction of the view to recognized keys. -/
theorem querystring_unmanaged_key_included :
    querystring [("filter[name]", "bob"), ("utm_source", "x")] =
      .ok [("filter[name]", "bob"), ("utm_source", "x")] := rfl

/-- Claim C2 (code evaluation at the failing input): with
`MAX_INCLUDE_DEPTH = 2`, the include value `"a.b.c"` has 3 dot-separated
segments, yet the accessor returns it unchanged instead of failing with
`InvalidInclude`, because the depth loop iterates the characters of the
raw string rather than its comma-split paths. -/
theorem include_depth_not_enforced :
    includeList ⟨true, none, some 2⟩ [("include", "a.b.c")] = .ok ["a.b.c"] ∧
    (splitC '.' "a.b.c").length = 3 :=
  ⟨rfl, rfl⟩

/-- Claim C7: bracket-group extraction of a raw key `name[key]` yields the
comma-split list when the value contains a comma and the scalar string
otherwise, and a key starting with the prefix whose bracket sub-key cannot
be extracted (a missing `[` or `]`) fails with `BadRequest` reporting the
offending parameter name. -/
theorem get_key_values_spec :
    (∀ (pre k v : String),
      ¬ '[' ∈ pre.data → ¬ ']' ∈ pre.data → ¬ '[' ∈ k.data → ¬ ']' ∈ k.data →
      v.data.contains ',' = true →
      get_key_values [(pre ++ "[" ++ k ++ "]", v)] pre =
        .ok [(k, .list (splitC ',' v))]) ∧
    (∀ (pre k v : String),
      ¬ '[' ∈ pre.data → ¬ ']' ∈ pre.data → ¬ '[' ∈ k.data → ¬ ']' ∈ k.data →
      v.data.contains ',' = false →
      get_key_values [(pre ++ "[" ++ k ++ "]", v)] pre =
        .ok [(k, .str v)]) ∧
    (∀ (pre rawk v : String),
      pyStartsWith rawk pre = true →
      (¬ '[' ∈ rawk.data ∨ ¬ ']' ∈ rawk.data) →
      get_key_values [(rawk, v)] pre = .error (.badRequest "Parse error" rawk)) := by
  refine ⟨?_, ?_, ?_⟩
  · intro pre k v h1 h2 h3 h4 hc
    rw [get_key_values_single pre k v h1 h2 h3 h4]
    unfold splitVal
    rw [hc]
    rfl
  · intro pre k v h1 h2 h3 h4 hc
    rw [get_key_values_single pre k v h1 h2 h3 h4]
    unfold splitVal
    rw [hc]
    rfl
  · intro pre rawk v hs hb
    exact get_key_values_bad_bracket v hs hb

/-- Witness for C7 at concrete inputs. -/
theorem get_key_values_spec_witness :
    get_key_values [("page[number]", "1,2")] "page" =
      .ok [("number", .list ["1", "2"])] ∧
    get_key_values [("page[number]", "25")] "page" =
      .ok [("number", .str "25")] ∧
    get_key_values [("filter[x", "1")] "filter[" =
      .error (.badRequest "Parse error" "filter[x") := by
  refine ⟨?_, ?_, ?_⟩
  · exact get_key_values_spec.1 "page" "number" "1,2"
      (by decide) (by decide) (by decide) (by decide) (by decide)
  · exact get_key_values_spec.2.1 "page" "number" "25"
      (by decide) (by decide) (by decide) (by decide) (by decide)
  · exact get_key_values_spec.2.2 "filter[" "filter[x" "1" (by decide)
      (Or.inr (by decide))

/-- Claim C3 (counterexample): the comma-joined value `"1,2"` for
`page[number]` is turned into a list by extraction, and `int(list)` raises
an uncaught `TypeError` — NOT the `BadRequest` the claim asserts (the
source only catches `ValueError`). -/
theorem pagination_list_value_typeerror :
    pagination defaultConfig [("page[number]", "1,2")] =
      .error (.typeError
        "int() argument must be a string, a bytes-like object or a real number, not 'list'") :=
  rfl

theorem splitVal_eq_str {v : String} (hc : v.data.contains ',' = false) :
    splitVal v = .str v := by
  unfold splitVal
  rw [hc]
  rfl

theorem splitVal_eq_list {v : String} (hc : v.data.contains ',' = true) :
    splitVal v = .list (splitC ',' v) := by
  unfold splitVal
  rw [hc]
  rfl

/-- Claim C3 (amended): the pagination accessor rejects unknown page
sub-keys with `BadRequest`, rejects a string value that does not parse as
an integer with `BadRequest` naming `page[number]`/`page[size]`, but a
comma-joined value (turned into a list by extraction) raises an uncaught
`TypeError` rather than `BadRequest`; it rejects `size = 0` when disabling
pagination is disallowed, rejects `size` above a configured
`MAX_PAGE_SIZE` naming the limit, and otherwise returns the validated
sub-key-to-string mapping. -/
theorem pagination_spec :
    (∀ (cfg : Config) (sub v : String),
      ¬ '[' ∈ sub.data → ¬ ']' ∈ sub.data → ¬ sub = "number" → ¬ sub = "size" →
      pagination cfg [("page" ++ "[" ++ sub ++ "]", v)] =
        .error (.badRequest (sub ++ " is not a valid parameter of pagination") "page")) ∧
    (∀ (cfg : Config) (v : String),
      v.data.contains ',' = false → pyInt v = none →
      pagination cfg [("page[number]", v)] =
        .error (.badRequest "Parse error" "page[number]")) ∧
    (∀ (cfg : Config) (v : String),
      v.data.contains ',' = true →
      pagination cfg [("page[number]", v)] =
        .error (.typeError
          "int() argument must be a string, a bytes-like object or a real number, not 'list'")) ∧
    (pagination ⟨false, none, none⟩ [("page[size]", "0")] =
      .error (.badRequest "You are not allowed to disable pagination" "page[size]")) ∧
    (∀ (m : Int) (v : String) (n : Int),
      v.data.contains ',' = false → pyInt v = some n → n > m →
      pagination ⟨true, some m, none⟩ [("page[size]", v)] =
        .error (.badRequest ("Maximum page size is " ++ toString m) "page[size]")) ∧
    (∀ (v₁ v₂ : String) (n₁ n₂ : Int),
      v₁.data.contains ',' = false → pyInt v₁ = some n₁ →
      v₂.data.contains ',' = false → pyInt v₂ = some n₂ →
      pagination defaultConfig [("page[number]", v₁), ("page[size]", v₂)] =
        .ok [("number", .str v₁), ("size", .str v₂)]) := by
  refine ⟨?_, ?_, ?_, rfl, ?_, ?_⟩
  · intro cfg sub v h1 h2 hn hs
    have hg := get_key_values_single "page" sub v
      (by decide) (by decide) h1 h2
    have hch : checkPageEntries [(sub, splitVal v)] =
        .error (.badRequest (sub ++ " is not a valid parameter of pagination") "page") := by
      simp only [checkPageEntries]
      rw [if_pos (fun h => h.elim hn hs)]
    simp only [pagination, hg, hch]
  · intro cfg v hc hint
    have hg : get_key_values [("page[number]", v)] "page" =
        .ok [("number", SVal.str v)] := by
      have h := get_key_values_single "page" "number" v
        (by decide) (by decide) (by decide) (by decide)
      rw [splitVal_eq_str hc] at h
      exact h
    have hch : checkPageEntries [("number", SVal.str v)] =
        .error (.badRequest "Parse error" "page[number]") := by
      simp [checkPageEntries, pyIntOfSVal, hint]
    simp only [pagination, hg, hch]
  · intro cfg v hc
    have hg : get_key_values [("page[number]", v)] "page" =
        .ok [("number", SVal.list (splitC ',' v))] := by
      have h := get_key_values_single "page" "number" v
        (by decide) (by decide) (by decide) (by decide)
      rw [splitVal_eq_list hc] at h
      exact h
    have hch : checkPageEntries [("number", SVal.list (splitC ',' v))] =
        .error (.typeError
          "int() argument must be a string, a bytes-like object or a real number, not 'list'") := rfl
    simp only [pagination, hg, hch]
  · intro m v n hc hint hgt
    have hg : get_key_values [("page[size]", v)] "page" =
        .ok [("size", SVal.str v)] := by
      have h := get_key_values_single "page" "size" v
        (by decide) (by decide) (by decide) (by decide)
      rw [splitVal_eq_str hc] at h
      exact h
    have hch : checkPageEntries [("size", SVal.str v)] = .ok () := by
      simp [checkPageEntries, pyIntOfSVal, hint]
    simp [pagination, hg, hch, dictGet, pyIntOfSVal, hint, hgt]
  · intro v₁ v₂ n₁ n₂ hc1 h1 hc2 h2
    have hg : get_key_values [("page[number]", v₁), ("page[size]", v₂)] "page" =
        .ok [("number", SVal.str v₁), ("size", SVal.str v₂)] := by
      unfold get_key_values
      show getKeyValuesGo "page"
        [("page" ++ "[" ++ "number" ++ "]", v₁),
         ("page" ++ "[" ++ "size" ++ "]", v₂)] [] = _
      rw [getKeyValuesGo_step_ok v₁ _ [] (by decide) (by decide) (by decide) (by decide)]
      rw [getKeyValuesGo_step_ok v₂ [] _ (by decide) (by decide) (by decide) (by decide)]
      rw [splitVal_eq_str hc1, splitVal_eq_str hc2]
      rfl
    have hch : checkPageEntries
        [("number", SVal.str v₁), ("size", SVal.str v₂)] = .ok () := by
      simp [checkPageEntries, pyIntOfSVal, h1, h2]
    simp [pagination, hg, hch, defaultConfig]

/-- Witness for C3 (amended) at concrete inputs. -/
theorem pagination_spec_witness :
    pagination defaultConfig [("page" ++ "[" ++ "offset" ++ "]", "5")] =
      .error (.badRequest "offset is not a valid parameter of pagination" "page") ∧
    pagination defaultConfig [("page[number]", "abc")] =
      .error (.badRequest "Parse error" "page[number]") ∧
    pagination defaultConfig [("page[number]", "1,2")] =
      .error (.typeError
        "int() argument must be a string, a bytes-like object or a real number, not 'list'") ∧
    pagination ⟨true, some 100, none⟩ [("page[size]", "9999")] =
      .error (.badRequest "Maximum page size is 100" "page[size]") ∧
    pagination defaultConfig [("page[number]", "25"), ("page[size]", "10")] =
      .ok [("number", .str "25"), ("size", .str "10")] := by
  refine ⟨?_, ?_, ?_, ?_, ?_⟩
  · exact pagination_spec.1 defaultConfig "offset" "5"
      (by decide) (by decide) (by decide) (by decide)
  · exact pagination_spec.2.1 defaultConfig "abc" (by decide) (by decide)
  · exact pagination_spec.2.2.1 defaultConfig "1,2" (by decide)
  · exact pagination_spec.2.2.2.2.1 100 "9999" 9999 (by decide) (by decide) (by decide)
  · exact pagination_spec.2.2.2.2.2 "25" "10" 25 10
      (by decide) (by decide) (by decide) (by decide)

/-- General form of `get_key_values_single`: any raw key `ext[k]` whose
text starts with the queried prefix has its bracket sub-key extracted,
whether or not `ext` equals the prefix. -/
theorem get_key_values_prefix_single {name ext k : String} (v : String)
    (hs : pyStartsWith (ext ++ "[" ++ k ++ "]") name = true)
    (h1 : ¬ '[' ∈ ext.data) (h2 : ¬ ']' ∈ ext.data)
    (h3 : ¬ '[' ∈ k.data) (h4 : ¬ ']' ∈ k.data) :
    get_key_values [(ext ++ "[" ++ k ++ "]", v)] name = .ok [(k, splitVal v)] := by
  unfold get_key_values
  simp only [getKeyValuesGo, hs, bracketSubKey_shape h1 h2 h3 h4, if_true]
  simp [getKeyValuesGo, dictUpdate]

/-- A raw key that does not start with `page` is skipped entirely by the
pagination accessor. -/
theorem pagination_skips_unmatched_key (cfg : Config) (k v : String)
    (hs : pyStartsWith k "page" = false) :
    pagination cfg [(k, v)] = .ok [] := by
  have hg : get_key_values [(k, v)] "page" = .ok [] := by
    unfold get_key_values
    simp only [getKeyValuesGo, hs]
    rfl
  obtain ⟨ad, mp, mi⟩ := cfg
  cases ad <;> cases mp <;> simp [pagination, hg, checkPageEntries, sizeOrOne, dictGet]

/-- Claim C10 (amended): bracket-group key selection is plain string-prefix
matching on the raw key, not exact parameter-name matching: every key of
the form `ext[sub]` whose text begins with `page` (e.g. `pages[number]` or
`pager[limit]`) has its bracketed substring extracted as a page sub-key
and validated as `number`/`size` or rejected with `BadRequest`; but
`pagination[limit]` does NOT begin with `page` (the strings diverge at the
fourth character) and is ignored by the accessor. -/
theorem pagination_prefix_matching :
    (∀ (cfg : Config) (ext sub v : String),
      pyStartsWith (ext ++ "[" ++ sub ++ "]") "page" = true →
      ¬ '[' ∈ ext.data → ¬ ']' ∈ ext.data →
      ¬ '[' ∈ sub.data → ¬ ']' ∈ sub.data →
      ¬ sub = "number" → ¬ sub = "size" →
      pagination cfg [(ext ++ "[" ++ sub ++ "]", v)] =
        .error (.badRequest (sub ++ " is not a valid parameter of pagination") "page")) ∧
    (∀ (cfg : Config) (v : String) (n : Int),
      cfg.maxPageSize = none → v.data.contains ',' = false → pyInt v = some n →
      pagination cfg [("pages[number]", v)] = .ok [("number", SVal.str v)]) ∧
    (∀ (cfg : Config) (k v : String),
      pyStartsWith k "page" = false → pagination cfg [(k, v)] = .ok []) := by
  refine ⟨?_, ?_, ?_⟩
  · intro cfg ext sub v hs h1 h2 h3 h4 hn hsz
    have hg := get_key_values_prefix_single v hs h1 h2 h3 h4
    have hch : checkPageEntries [(sub, splitVal v)] =
        .error (.badRequest (sub ++ " is not a valid parameter of pagination") "page") := by
      simp only [checkPageEntries]
      rw [if_pos (fun h => h.elim hn hsz)]
    simp only [pagination, hg, hch]
  · intro cfg v n hmp hc hint
    obtain ⟨ad, mp, mi⟩ := cfg
    simp only at hmp
    subst hmp
    have hg : get_key_values [("pages[number]", v)] "page" =
        .ok [("number", splitVal v)] := rfl
    rw [splitVal_eq_str hc] at hg
    have hch : checkPageEntries [("number", SVal.str v)] = .ok () := by
      simp [checkPageEntries, pyIntOfSVal, hint]
    cases ad <;> simp [pagination, hg, hch, sizeOrOne, dictGet]
  · intro cfg k v hs
    exact pagination_skips_unmatched_key cfg k v hs

/-- Witness for C10 (amended) at concrete inputs. -/
theorem pagination_prefix_matching_witness :
    pagination defaultConfig [("pager" ++ "[" ++ "limit" ++ "]", "10")] =
      .error (.badRequest "limit is not a valid parameter of pagination" "page") ∧
    pagination defaultConfig [("pages[number]", "3")] =
      .ok [("number", SVal.str "3")] ∧
    pagination defaultConfig [("utm_source", "x")] = .ok [] :=
  ⟨pagination_prefix_matching.1 defaultConfig "pager" "limit" "10" (by decide)
      (by decide) (by decide) (by decide) (by decide) (by decide) (by decide),
   pagination_prefix_matching.2.1 defaultConfig "3" 3 rfl (by decide) (by decide),
   pagination_prefix_matching.2.2 defaultConfig "utm_source" "x" (by decide)⟩

/-- Claim C10 (counterexample): `pagination` does not begin with `page`
("pagi" vs "page"), so the claim's example key `pagination[limit]` is NOT
extracted as a page sub-key — the accessor ignores it and returns the
empty mapping instead of validating `limit` or raising `BadRequest`. -/
theorem pagination_key_not_page_prefixed :
    pagination defaultConfig [("pagination[limit]", "10")] = .ok [] ∧
    pyStartsWith "pagination[limit]" "page" = false := by
  constructor
  · have h : pyStartsWith "pagination[limit]" "page" = false := by decide
    exact pagination_skips_unmatched_key defaultConfig _ "10" h
  · decide

/-- Claim C6: the filters accessor fails with `InvalidFilters` when the
raw `filter` parameter is present and its JSON decode fails; when it
decodes to a list, it returns the decoded conditions in order followed by
one synthesized `'{name, op: "eq", val}'` equality condition per
`filter[...]` bracket parameter; with no `filter` parameter only the
synthesized conditions are returned. -/
theorem filters_spec :
    (∀ (qs : List (String × String)) (v : String),
      pyGet qs "filter" = some v → jsonLoads v = none →
      filters qs = .error (.invalidFilters "Parse error")) ∧
    (∀ (qs : List (String × String)) (v : String) (l : List JVal)
       (kvs : List (String × SVal)),
      pyGet qs "filter" = some v → jsonLoads v = some (.arr l) →
      get_key_values qs "filter[" = .ok kvs →
      filters qs = .ok (l ++ simple_filters kvs)) ∧
    (∀ (qs : List (String × String)) (kvs : List (String × SVal)),
      pyGet qs "filter" = none → get_key_values qs "filter[" = .ok kvs →
      filters qs = .ok (simple_filters kvs)) := by
  refine ⟨?_, ?_, ?_⟩
  · intro qs v hv hj
    simp only [filters, hv, hj]
  · intro qs v l kvs hv hj hk
    simp only [filters, hv, hj, pyExtend, hk]
    rcases kvs with _ | ⟨p, rest⟩
    · simp [simple_filters]
    · simp
  · intro qs kvs hv hk
    simp only [filters, hv, hk]
    rcases kvs with _ | ⟨p, rest⟩
    · simp [simple_filters]
    · simp

/-- Witness for C6 at concrete inputs. -/
theorem filters_spec_witness :
    filters [("filter", "not-json")] = .error (.invalidFilters "Parse error") ∧
    filters [("filter", "[\x7b\"name\":\"age\",\"op\":\"eq\",\"val\":30\x7d]"),
             ("filter[f2]", "v2")] =
      .ok [.obj [("name", .str "age"), ("op", .str "eq"), ("val", .num 30)],
           .obj [("name", .str "f2"), ("op", .str "eq"), ("val", .str "v2")]] ∧
    filters [("filter[name]", "bob")] =
      .ok [.obj [("name", .str "name"), ("op", .str "eq"), ("val", .str "bob")]] := by
  refine ⟨?_, ?_, ?_⟩
  · exact filters_spec.1 _ "not-json" rfl rfl
  · exact filters_spec.2.1 _
      "[\x7b\"name\":\"age\",\"op\":\"eq\",\"val\":30\x7d]"
      [.obj [("name", .str "age"), ("op", .str "eq"), ("val", .num 30)]]
      [("f2", .str "v2")] rfl rfl rfl
  · exact filters_spec.2.2 _ [("name", .str "bob")] rfl rfl

/-- Claim C9: when the raw `filter` parameter decodes to a non-list
iterable — a JSON object or a JSON string — `list.extend` iterates it
without error (the object's keys, the string's characters); when it
decodes to a non-iterable JSON number, boolean or null, the `TypeError`
is caught and re-raised as `InvalidFilters`. -/
theorem filters_noniterable_spec :
    (∀ (qs : List (String × String)) (v : String) (o : List (String × JVal))
       (kvs : List (String × SVal)),
      pyGet qs "filter" = some v → jsonLoads v = some (.obj o) →
      get_key_values qs "filter[" = .ok kvs →
      filters qs = .ok (o.map (fun p => JVal.str p.1) ++ simple_filters kvs)) ∧
    (∀ (qs : List (String × String)) (v s : String)
       (kvs : List (String × SVal)),
      pyGet qs "filter" = some v → jsonLoads v = some (.str s) →
      get_key_values qs "filter[" = .ok kvs →
      filters qs =
        .ok (s.data.map (fun c => JVal.str c.toString) ++ simple_filters kvs)) ∧
    (∀ (qs : List (String × String)) (v : String) (n : Int),
      pyGet qs "filter" = some v → jsonLoads v = some (.num n) →
      filters qs = .error (.invalidFilters "Parse error")) ∧
    (∀ (qs : List (String × String)) (v : String) (b : Bool),
      pyGet qs "filter" = some v → jsonLoads v = some (.bool b) →
      filters qs = .error (.invalidFilters "Parse error")) ∧
    (∀ (qs : List (String × String)) (v : String),
      pyGet qs "filter" = some v → jsonLoads v = some .null →
      filters qs = .error (.invalidFilters "Parse error")) := by
  refine ⟨?_, ?_, ?_, ?_, ?_⟩
  · intro qs v o kvs hv hj hk
    simp only [filters, hv, hj, pyExtend, hk]
    rcases kvs with _ | ⟨p, rest⟩
    · simp [simple_filters]
    · simp
  · intro qs v s kvs hv hj hk
    simp only [filters, hv, hj, pyExtend, hk]
    rcases kvs with _ | ⟨p, rest⟩
    · simp [simple_filters]
    · simp
  · intro qs v n hv hj
    simp only [filters, hv, hj, pyExtend]
  · intro qs v b hv hj
    simp only [filters, hv, hj, pyExtend]
  · intro qs v hv hj
    simp only [filters, hv, hj, pyExtend]

/-- Witness for C9 at concrete inputs. -/
theorem filters_noniterable_spec_witness :
    filters [("filter", "\x7b\"a\":1,\"b\":2\x7d")] = .ok [.str "a", .str "b"] ∧
    filters [("filter", "\"ab\"")] = .ok [.str "a", .str "b"] ∧
    filters [("filter", "3")] = .error (.invalidFilters "Parse error") ∧
    filters [("filter", "true")] = .error (.invalidFilters "Parse error") ∧
    filters [("filter", "null")] = .error (.invalidFilters "Parse error") := by
  refine ⟨?_, ?_, ?_, ?_, ?_⟩
  · exact filters_noniterable_spec.1 _ "\x7b\"a\":1,\"b\":2\x7d"
      [("a", .num 1), ("b", .num 2)] [] rfl rfl rfl
  · exact filters_noniterable_spec.2.1 _ "\"ab\"" "ab" [] rfl rfl rfl
  · exact filters_noniterable_spec.2.2.1 _ "3" 3 rfl rfl
  · exact filters_noniterable_spec.2.2.2.1 _ "true" true rfl rfl
  · exact filters_noniterable_spec.2.2.2.2 _ "null" rfl rfl

theorem findUndeclared_of_all_mem {sch : SchemaDesc} :
    ∀ {fl : List String}, (∀ f ∈ fl, f ∈ sch.declaredFields) →
    findUndeclared sch fl = none := by
  intro fl
  induction fl with
  | nil => intro _; rfl
  | cons f fs ih =>
    intro h
    have hf : f ∈ sch.declaredFields := h f (List.mem_cons_self f fs)
    simp only [findUndeclared, if_pos hf]
    exact ih (fun g hg => h g (List.mem_cons_of_mem f hg))

theorem findUndeclared_isSome_of_bad {sch : SchemaDesc} {fl : List String}
    {f : String} (hf : f ∈ fl) (hnd : ¬ f ∈ sch.declaredFields) :
    ∃ g, findUndeclared sch fl = some g := by
  induction fl with
  | nil => cases hf
  | cons a fs ih =>
    by_cases ha : a ∈ sch.declaredFields
    · rcases List.mem_cons.mp hf with heq | hmem
      · exact absurd (heq ▸ ha) hnd
      · obtain ⟨g, hg⟩ := ih hmem
        exact ⟨g, by simp only [findUndeclared, if_pos ha]; exact hg⟩
    · exact ⟨a, by simp only [findUndeclared, if_neg ha]⟩

theorem checkFields_ok {env : SchemaEnv} :
    ∀ {l : List (String × List String)},
    (∀ p ∈ l, ∀ f ∈ p.2, f ∈ (env p.1).declaredFields) →
    checkFields env l = .ok () := by
  intro l
  induction l with
  | nil => intro _; rfl
  | cons p rest ih =>
    intro h
    obtain ⟨t, fl⟩ := p
    have hnone : findUndeclared (env t) fl =
        none := findUndeclared_of_all_mem (h (t, fl) (List.mem_cons_self _ _))
    simp only [checkFields, hnone]
    exact ih (fun q hq => h q (List.mem_cons_of_mem _ hq))

theorem checkFields_err {env : SchemaEnv} {l : List (String × List String)}
    {t : String} {fl : List String} {f : String}
    (hmem : (t, fl) ∈ l) (hf : f ∈ fl) (hnd : ¬ f ∈ (env t).declaredFields) :
    ∃ msg, checkFields env l = .error (.invalidField msg) := by
  induction l with
  | nil => cases hmem
  | cons p rest ih =>
    obtain ⟨a, afl⟩ := p
    cases hfu : findUndeclared (env a) afl with
    | some g =>
      exact ⟨(env a).name ++ " has no attribute " ++ g, by
        simp only [checkFields, hfu]⟩
    | none =>
      rcases List.mem_cons.mp hmem with heq | hmem2
      · injection heq with hta hfla
        subst hta
        subst hfla
        obtain ⟨g, hg⟩ := findUndeclared_isSome_of_bad hf hnd
        rw [hg] at hfu
        cases hfu
      · obtain ⟨msg, hmsg⟩ := ih hmem2
        exact ⟨msg, by simp only [checkFields, hfu]; exact hmsg⟩

/-- Claim C8: the fields accessor normalizes scalar sparse-fieldset values
to one-element lists, fails with `InvalidField` whenever some requested
field is not declared on the schema resolved for its resource type, and
otherwise returns the resource-type-to-field-list mapping. -/
theorem fields_spec :
    (∀ (env : SchemaEnv) (qs : List (String × String))
       (result : List (String × SVal)),
      get_key_values qs "fields" = .ok result →
      (∀ t fl, (t, fl) ∈ result → ∀ f ∈ normSVal fl, f ∈ (env t).declaredFields) →
      fields env qs = .ok (result.map (fun p => (p.1, normSVal p.2)))) ∧
    (∀ (env : SchemaEnv) (qs : List (String × String))
       (result : List (String × SVal)) (t : String) (fl : SVal) (f : String),
      get_key_values qs "fields" = .ok result → (t, fl) ∈ result →
      f ∈ normSVal fl → ¬ f ∈ (env t).declaredFields →
      ∃ msg, fields env qs = .error (.invalidField msg)) := by
  constructor
  · intro env qs result hg hall
    have hok : checkFields env (result.map (fun p => (p.1, normSVal p.2))) = .ok () := by
      apply checkFields_ok
      intro p hp f hf
      obtain ⟨q, hq, hpq⟩ := List.mem_map.mp hp
      obtain ⟨t0, fl0⟩ := q
      cases hpq
      exact hall t0 fl0 hq f hf
    simp only [fields, hg, hok]
  · intro env qs result t fl f hg hmem hf hnd
    have hmem2 : (t, normSVal fl) ∈ result.map (fun p => (p.1, normSVal p.2)) :=
      List.mem_map.mpr ⟨(t, fl), hmem, rfl⟩
    obtain ⟨msg, hmsg⟩ := checkFields_err hmem2 hf hnd
    exact ⟨msg, by simp only [fields, hg, hmsg]⟩

/-- Witness for C8 at concrete inputs. -/
theorem fields_spec_witness :
    fields testEnv [("fields[person]", "name")] = .ok [("person", ["name"])] ∧
    (∃ msg, fields testEnv [("fields[person]", "ghost")] =
      .error (.invalidField msg)) := by
  constructor
  · exact fields_spec.1 testEnv _ [("person", .str "name")] rfl
      (by
        intro t fl hmem f hf
        simp only [List.mem_singleton] at hmem
        injection hmem with h1 h2
        subst h1
        subst h2
        simp only [normSVal, List.mem_singleton] at hf
        subst hf
        decide)
  · exact fields_spec.2 testEnv _ [("person", .str "ghost")] "person"
      (.str "ghost") "ghost" rfl (List.mem_singleton.mpr rfl)
      (by simp [normSVal]) (by decide)

/-- Claim C5: sort-segment resolution fails with `InvalidSort` when a
relationship-path component is undeclared or traverses a to-many
relationship, and when the final field is undeclared on the schema
reached, or names a relationship field; a valid path advances through the
related schemas accumulating the ordered model-level join fields, and a
successful segment yields the `{field, order, nulls, joins}` record; the
sorting accessor applies this resolution to every comma-separated
segment in order. -/
theorem sorting_resolution :
    (∀ (env : SchemaEnv) (sch : SchemaDesc) (j : String) (rest acc : List String),
      ¬ j ∈ sch.relationships →
      resolveJoins env sch (j :: rest) acc =
        .error (.invalidSort (sch.name ++ " has no relationship " ++ j))) ∧
    (∀ (env : SchemaEnv) (sch : SchemaDesc) (j : String) (rest acc : List String),
      j ∈ sch.relationships → j ∈ sch.manyRels →
      resolveJoins env sch (j :: rest) acc =
        .error (.invalidSort
          ("Cannot do X->many join from " ++ sch.name ++ " to " ++ j))) ∧
    (∀ (env : SchemaEnv) (sch : SchemaDesc) (j : String) (rest acc : List String),
      j ∈ sch.relationships → ¬ j ∈ sch.manyRels →
      resolveJoins env sch (j :: rest) acc =
        resolveJoins env (env (sch.relatedType j)) rest (acc ++ [sch.modelField j])) ∧
    (∀ (env : SchemaEnv) (sch : SchemaDesc) (s : String) (minus : Bool)
       (nulls : Option String) (jp f : String) (cur : SchemaDesc)
       (mj : List String),
      sortMatch s = some (minus, nulls, jp, f) →
      resolveJoins env sch (segJoins jp) [] = .ok (cur, mj) →
      ¬ f ∈ cur.declaredFields →
      resolveSortSegment env sch s =
        .error (.invalidSort (cur.name ++ " has no attribute " ++ f))) ∧
    (∀ (env : SchemaEnv) (sch : SchemaDesc) (s : String) (minus : Bool)
       (nulls : Option String) (jp f : String) (cur : SchemaDesc)
       (mj : List String),
      sortMatch s = some (minus, nulls, jp, f) →
      resolveJoins env sch (segJoins jp) [] = .ok (cur, mj) →
      f ∈ cur.declaredFields → f ∈ cur.relationships →
      resolveSortSegment env sch s =
        .error (.invalidSort
          ("You can't sort on " ++ f ++ " because it is a relationship field"))) ∧
    (∀ (env : SchemaEnv) (sch : SchemaDesc) (s : String) (minus : Bool)
       (nulls : Option String) (jp f : String) (cur : SchemaDesc)
       (mj : List String),
      sortMatch s = some (minus, nulls, jp, f) →
      resolveJoins env sch (segJoins jp) [] = .ok (cur, mj) →
      f ∈ cur.declaredFields → ¬ f ∈ cur.relationships →
      resolveSortSegment env sch s =
        .ok ⟨cur.modelField f, if minus then "desc" else "asc", nulls, mj⟩) ∧
    (∀ (env : SchemaEnv) (sch : SchemaDesc) (qs : List (String × String))
       (v : String),
      pyGet qs "sort" = some v → ¬ v = "" →
      sorting env sch qs = mapME (resolveSortSegment env sch) (splitC ',' v)) := by
  refine ⟨?_, ?_, ?_, ?_, ?_, ?_, ?_⟩
  · intro env sch j rest acc hj
    simp only [resolveJoins, if_pos hj]
  · intro env sch j rest acc hj hm
    simp only [resolveJoins]
    rw [if_neg (fun h => h hj), if_pos hm]
  · intro env sch j rest acc hj hm
    simp only [resolveJoins]
    rw [if_neg (fun h => h hj), if_neg hm]
  · intro env sch s minus nulls jp f cur mj hsm hrj hnd
    simp only [resolveSortSegment, hsm, hrj]
    rw [if_pos hnd]
  · intro env sch s minus nulls jp f cur mj hsm hrj hd hr
    simp only [resolveSortSegment, hsm, hrj]
    rw [if_neg (fun h => h hd), if_pos hr]
  · intro env sch s minus nulls jp f cur mj hsm hrj hd hr
    simp only [resolveSortSegment, hsm, hrj]
    rw [if_neg (fun h => h hd), if_neg hr]
  · intro env sch qs v hv hne
    simp only [sorting, hv, if_neg hne]

/-- Witness for C5 at concrete inputs over the test schemas. -/
theorem sorting_resolution_witness :
    resolveJoins testEnv personSchema ["ghost"] [] =
      .error (.invalidSort "PersonSchema has no relationship ghost") ∧
    resolveJoins testEnv personSchema ["computers"] [] =
      .error (.invalidSort "Cannot do X->many join from PersonSchema to computers") ∧
    resolveJoins testEnv computerSchema ["owner"] [] =
      resolveJoins testEnv personSchema [] ["m_owner"] ∧
    resolveSortSegment testEnv computerSchema "-owner.ghost" =
      .error (.invalidSort "PersonSchema has no attribute ghost") ∧
    resolveSortSegment testEnv personSchema "computers" =
      .error (.invalidSort
        "You can't sort on computers because it is a relationship field") ∧
    resolveSortSegment testEnv computerSchema "-owner.name" =
      .ok ⟨"m_name", "desc", none, ["m_owner"]⟩ ∧
    sorting testEnv personSchema [("sort", "name")] =
      mapME (resolveSortSegment testEnv personSchema) (splitC ',' "name") := by
  refine ⟨?_, ?_, ?_, ?_, ?_, ?_, ?_⟩
  · exact sorting_resolution.1 testEnv personSchema "ghost" [] [] (by decide)
  · exact sorting_resolution.2.1 testEnv personSchema "computers" [] []
      (by decide) (by decide)
  · exact sorting_resolution.2.2.1 testEnv computerSchema "owner" [] []
      (by decide) (by decide)
  · exact sorting_resolution.2.2.2.1 testEnv computerSchema "-owner.ghost"
      true none "owner." "ghost" personSchema ["m_owner"] rfl rfl (by decide)
  · exact sorting_resolution.2.2.2.2.1 testEnv personSchema "computers"
      false none "" "computers" personSchema [] rfl rfl (by decide) (by decide)
  · exact sorting_resolution.2.2.2.2.2.1 testEnv computerSchema "-owner.name"
      true none "owner." "name" personSchema ["m_owner"] rfl rfl
      (by decide) (by decide)
  · exact sorting_resolution.2.2.2.2.2.2 testEnv personSchema _ "name"
      rfl (by decide)

theorem mapME_error_of_prefix_ok (f : String → Except PyErr SortItem)
    (pre : List String) (s : String) (rest : List String) (e : PyErr)
    (hpre : ∀ t ∈ pre, ∃ r, f t = .ok r) (hs : f s = .error e) :
    mapME f (pre ++ s :: rest) = .error e := by
  induction pre with
  | nil => simp only [List.nil_append, mapME, hs]
  | cons t ts ih =>
    obtain ⟨r, hr⟩ := hpre t (List.mem_cons_self t ts)
    have hts : ∀ u ∈ ts, ∃ r, f u = .ok r :=
      fun u hu => hpre u (List.mem_cons_of_mem t hu)
    simp only [List.cons_append, mapME, hr, List.append_eq, ih hts]

/-- Claim C4 (amended): a sort segment on which the anchored prefix match
of the sort grammar fails — e.g. an empty segment, or one that starts
with a character outside the grammar — makes the sorting accessor fail
with `InvalidSort` carrying the constant message
`Invalid sort field format {sort_field}` (the missing f-string prefix in
the source means the offending segment text is NOT interpolated), provided
every earlier segment resolved successfully; a segment whose conforming
prefix is followed by stray characters is not rejected by the grammar
check. -/
theorem sorting_invalid_format (env : SchemaEnv) (sch : SchemaDesc)
    (qs : List (String × String)) (v : String) (pre : List String)
    (s : String) (rest : List String)
    (hget : pyGet qs "sort" = some v) (hne : ¬ v = "")
    (hsplit : splitC ',' v = pre ++ s :: rest)
    (hpre : ∀ t ∈ pre, ∃ r, resolveSortSegment env sch t = .ok r)
    (hmatch : sortMatch s = none) :
    sorting env sch qs =
      .error (.invalidSort "Invalid sort field format {sort_field}") := by
  have hs : resolveSortSegment env sch s =
      .error (.invalidSort "Invalid sort field format {sort_field}") := by
    simp only [resolveSortSegment, hmatch]
  simp only [sorting, hget, if_neg hne, hsplit]
  exact mapME_error_of_prefix_ok _ pre s rest _ hpre hs

/-- Witness for C4 (amended): the second segment of `"name,!"` fails the
grammar match after the first resolves. -/
theorem sorting_invalid_format_witness :
    sorting testEnv personSchema [("sort", "name,!")] =
      .error (.invalidSort "Invalid sort field format {sort_field}") := by
  apply sorting_invalid_format testEnv personSchema [("sort", "name,!")]
    "name,!" ["name"] "!" [] rfl (by decide) rfl ?_ rfl
  intro t ht
  simp only [List.mem_singleton] at ht
  subst ht
  exact ⟨⟨"m_name", "asc", none, []⟩, rfl⟩

/-- Claim C4 (counterexample): the `InvalidSort` message for the malformed
segment `"!"` is the literal text `Invalid sort field format {sort_field}`
— it does not include the offending segment (the source lacks the
f-string prefix) — and the segment `"name !x"`, whose characters are
outside the grammar after a conforming prefix, is accepted rather than
rejected. -/
theorem sorting_message_not_interpolated :
    (sorting testEnv personSchema [("sort", "!")] =
      .error (.invalidSort "Invalid sort field format {sort_field}") ∧
     ¬ '!' ∈ "Invalid sort field format {sort_field}".data) ∧
    sorting testEnv personSchema [("sort", "name !x")] =
      .ok [⟨"m_name", "asc", none, []⟩] :=
  ⟨⟨rfl, by decide⟩, rfl⟩
